import Mathlib

/-!
Shallow embedding of the FactoryFlow inventory service
(`src/app/main.py`, `src/app/models.py`).

The persisted state is the `items` table, modelled as a list of rows in
insertion order.  Each HTTP endpoint of `main.py` becomes a function from
the request parameters and the current table to the observable response
and the table after the call.  Python integers are `Int`; SQLAlchemy
`.first()` on a filtered query is `List.find?`; mutating the ORM object
returned by `.first()` is an in-place update of the first matching row.
-/

/-- One row of the `items` table (`src/app/models.py`, class `Item`).
The `created_at` / `updated_at` timestamp columns are omitted: no claim
mentions them.  `quantity` is `Int`, matching Python's unbounded integers
(the column is a plain `Integer`; negativity is ruled out only by the
check constraint, not by the type). -/
structure Item where
  id : Nat
  name : String
  quantity : Int
  location : String
deriving Repr, DecidableEq

/-- The persisted ledger: the rows of the `items` table, in insertion order. -/
abbrev Ledger := List Item

/-- The SQLAlchemy filter `Item.name == n, Item.location == l` used by every
`(name, location)` lookup in `main.py`. -/
def matchesNL (n l : String) (r : Item) : Bool :=
  r.name == n && r.location == l

/-- Primary-key assignment for a newly inserted row: a value distinct from
every existing id (autoincrement surrogate). -/
def freshId (st : Ledger) : Nat :=
  st.foldr (fun r m => max r.id m) 0 + 1

/-- Mutating the ORM object returned by `.first()` and flushing: the first
row matching `p` is updated by `f`, all other rows are untouched. -/
def updateFirst (p : Item → Bool) (f : Item → Item) : Ledger → Ledger
  | [] => []
  | r :: rs => if p r then f r :: rs else r :: updateFirst p f rs

/-- `quantity >= 0` holds for every row of the table. -/
def nonneg (st : Ledger) : Bool :=
  st.all (fun r => decide (0 ≤ r.quantity))

/-- Modelled from the spec: the engine/session layer (`src/app/database.py`,
with `get_db` / `init_db`) is not under `src/`; only its callers are.  The
table declares `CheckConstraint('quantity >= 0')` (`src/app/models.py`) and
spec §7 makes storage the final authority: a commit that would persist a
negative quantity is rejected (`ConstraintViolation`) and the transaction
is rolled back, leaving the persisted ledger unchanged.  `commit old new`
returns whether the commit succeeded, and the resulting persisted ledger. -/
def commit (old new : Ledger) : Bool × Ledger :=
  if nonneg new then (true, new) else (false, old)

/-- Observable outcome of one endpoint call. -/
inductive ApiResult where
  /-- 2xx JSON response -/
  | ok
  /-- 422 from pydantic request validation -/
  | validationError
  /-- `HTTPException` 404 -/
  | notFound
  /-- `HTTPException` 400 carrying the available and requested amounts -/
  | insufficient (avail requested : Int)
  /-- 303 `RedirectResponse` to the home page -/
  | redirect
  /-- 500: storage rejected the commit -/
  | serverError
deriving Repr, DecidableEq

/-- Commit the unit of work and build the response: `success` on a
successful commit, 500 on a storage rejection. -/
def finish (success : ApiResult) (old new : Ledger) : ApiResult × Ledger :=
  match commit old new with
  | (true, stf) => (success, stf)
  | (false, stf) => (.serverError, stf)

/-- The find-or-create increment block that `main.py` repeats verbatim at
each of its four upsert sites (`create_item`, `add_item_form`, and the
destination half of `move_inventory` / `move_item_form`): if a row matching
`(name, location)` exists, add `quantity` to the first such row, otherwise
append a new row carrying `quantity`. -/
def destUpsert (name : String) (quantity : Int) (location : String) (st : Ledger) :
    Ledger :=
  match st.find? (matchesNL name location) with
  | some _ =>
      updateFirst (matchesNL name location)
        (fun r => { r with quantity := r.quantity + quantity }) st
  | none => st ++ [⟨freshId st, name, quantity, location⟩]

/-- `POST /inventory` (`main.py` `create_item`), including the pydantic
`ItemCreate` validation: `name` 1..255 characters, `quantity >= 0`,
`location` 1..100 characters.  An existing `(name, location)` row is
incremented instead of inserting a duplicate. -/
def create_item (name : String) (quantity : Int) (location : String) (st : Ledger) :
    ApiResult × Ledger :=
  if name.length < 1 ∨ 255 < name.length ∨ quantity < 0
      ∨ location.length < 1 ∨ 100 < location.length then
    (.validationError, st)
  else
    finish .ok st (destUpsert name quantity location st)

/-- Core of `POST /move` (`main.py` `move_inventory`), after request
validation: look up the source row, reject if absent or short, otherwise
decrement the source, then increment (or create) the destination —
the destination lookup runs against the session state that already holds
the source decrement (SQLAlchemy autoflush and identity map). -/
def move_handler (item_name : String) (quantity : Int)
    (from_location to_location : String) (st : Ledger) : ApiResult × Ledger :=
  match st.find? (matchesNL item_name from_location) with
  | none => (.notFound, st)
  | some from_item =>
    if from_item.quantity < quantity then
      (.insufficient from_item.quantity quantity, st)
    else
      finish .ok st (destUpsert item_name quantity to_location
        (updateFirst (matchesNL item_name from_location)
          (fun r => { r with quantity := r.quantity - quantity }) st))

/-- `POST /move` (`main.py` `move_inventory`), including the pydantic
`MoveRequest` validation: `quantity` strictly positive (`gt=0`). -/
def move_inventory (item_name : String) (quantity : Int)
    (from_location to_location : String) (st : Ledger) : ApiResult × Ledger :=
  if quantity ≤ 0 then (.validationError, st)
  else move_handler item_name quantity from_location to_location st

/-- `POST /add-item-form` (`main.py` `add_item_form`): upsert-increment with
no validation beyond integer parsing of the form field. -/
def add_item_form (name : String) (quantity : Int) (location : String) (st : Ledger) :
    ApiResult × Ledger :=
  finish .redirect st (destUpsert name quantity location st)

/-- `POST /move-item-form` (`main.py` `move_item_form`): the HTML form
surface.  No amount validation; an absent source or insufficient stock
silently redirects home without mutating anything. -/
def move_item_form (item_name : String) (quantity : Int)
    (from_location to_location : String) (st : Ledger) : ApiResult × Ledger :=
  match st.find? (matchesNL item_name from_location) with
  | none => (.redirect, st)
  | some from_item =>
    if from_item.quantity < quantity then (.redirect, st)
    else
      finish .redirect st (destUpsert item_name quantity to_location
        (updateFirst (matchesNL item_name from_location)
          (fun r => { r with quantity := r.quantity - quantity }) st))

/-- `DELETE /inventory/{item_id}` (`main.py` `delete_item`): 404 when no
row has the id, otherwise deletes that row regardless of its quantity. -/
def delete_item (item_id : Nat) (st : Ledger) : ApiResult × Ledger :=
  match st.find? (fun r => r.id == item_id) with
  | none => (.notFound, st)
  | some _ => finish .ok st (st.eraseP (fun r => r.id == item_id))

/-- One call to any mutating public surface of the service. -/
inductive Op where
  | create (name : String) (quantity : Int) (location : String)
  | move (item_name : String) (quantity : Int) (from_location to_location : String)
  | addForm (name : String) (quantity : Int) (location : String)
  | moveForm (item_name : String) (quantity : Int) (from_location to_location : String)
  | deleteOp (item_id : Nat)
deriving Repr, DecidableEq

/-- The ledger after one endpoint call. -/
def stepOp (st : Ledger) (op : Op) : Ledger :=
  match op with
  | .create n q l => (create_item n q l st).2
  | .move n q f t => (move_inventory n q f t st).2
  | .addForm n q l => (add_item_form n q l st).2
  | .moveForm n q f t => (move_item_form n q f t st).2
  | .deleteOp i => (delete_item i st).2

/-- The ledger after a sequence of endpoint calls. -/
def runOps (st : Ledger) (ops : List Op) : Ledger :=
  ops.foldl stepOp st

/-- Total stock of an item name across all locations:
`SELECT SUM(quantity) FROM items WHERE name = n`. -/
def totalQty (n : String) (st : Ledger) : Int :=
  ((st.filter (fun r => r.name == n)).map Item.quantity).sum

/-- The `(name, location)` key of every row, in order. -/
def ledgerKeys (st : Ledger) : List (String × String) :=
  st.map (fun r => (r.name, r.location))

/-- At most one row per `(name, location)` pair. -/
def uniqueNL (st : Ledger) : Prop :=
  (ledgerKeys st).Nodup

instance : DecidablePred uniqueNL := fun st =>
  inferInstanceAs (Decidable (ledgerKeys st).Nodup)

/-- A table-level constraint declaration, as an entry of SQLAlchemy
`__table_args__`. -/
inductive TableConstraint where
  | checkDecl (sqltext cname : String)
  | uniqueDecl (cols : List String) (cname : String)
deriving Repr, DecidableEq

/-- Whether a table-level constraint is a CHECK with the given SQL text. -/
def TableConstraint.isCheckOn (s : String) : TableConstraint → Bool
  | .checkDecl t _ => t == s
  | _ => false

/-- Whether a table-level constraint is a UNIQUE over exactly the two
named columns (in either order). -/
def TableConstraint.isUniqueOver (c1 c2 : String) : TableConstraint → Bool
  | .uniqueDecl cols _ => cols == [c1, c2] || cols == [c2, c1]
  | _ => false

/-- A column declaration of the `items` table: its name, whether it is the
primary key, whether it carries a single-column UNIQUE flag, whether it is
indexed, and whether NULL is allowed (`src/app/models.py`). -/
structure ColumnDecl where
  colName : String
  primaryKey : Bool
  uniqueFlag : Bool
  indexed : Bool
  nullable : Bool
deriving Repr, DecidableEq

/-- The column declarations of `class Item` in `src/app/models.py`.  No
column sets `unique=True`. -/
def itemsColumns : List ColumnDecl :=
  [ ⟨"id", true, false, true, false⟩,
    ⟨"name", false, false, true, false⟩,
    ⟨"quantity", false, false, false, false⟩,
    ⟨"location", false, false, true, false⟩,
    ⟨"created_at", false, false, false, true⟩,
    ⟨"updated_at", false, false, false, true⟩ ]

/-- The `__table_args__` of `class Item` in `src/app/models.py`: a single
check constraint preventing negative inventory, and nothing else. -/
def itemsTableArgs : List TableConstraint :=
  [ .checkDecl "quantity >= 0" "check_quantity_positive" ]

/-- The persisted schema declares a uniqueness constraint covering the
`(name, location)` pair: either a table-level UNIQUE over the two columns,
or a single-column UNIQUE flag on one of them. -/
def declaresUniqueNL : Prop :=
  (∃ c ∈ itemsTableArgs, c.isUniqueOver "name" "location" = true)
  ∨ (∃ col ∈ itemsColumns,
      (col.colName = "name" ∨ col.colName = "location") ∧ col.uniqueFlag = true)

/-- The persisted schema declares the check constraint `quantity >= 0`. -/
def declaresQuantityCheck : Prop :=
  ∃ c ∈ itemsTableArgs, c.isCheckOn "quantity >= 0" = true

instance : Decidable declaresUniqueNL := by
  unfold declaresUniqueNL
  infer_instance

instance : Decidable declaresQuantityCheck := by
  unfold declaresQuantityCheck
  infer_instance

/-! ## Helper lemmas -/

theorem finish_snd (s : ApiResult) (old new : Ledger) :
    (finish s old new).2 = new ∨ (finish s old new).2 = old := by
  by_cases h : nonneg new = true <;> simp [finish, commit, h]

theorem finish_of_nonneg (s : ApiResult) (old new : Ledger) (h : nonneg new = true) :
    finish s old new = (s, new) := by
  simp [finish, commit, h]

theorem totalQty_cons (n : String) (r : Item) (rs : Ledger) :
    totalQty n (r :: rs) = (if r.name == n then r.quantity else 0) + totalQty n rs := by
  by_cases h : r.name == n <;> simp [totalQty, List.filter_cons, h]

theorem totalQty_append_one (n : String) (st : Ledger) (r : Item) :
    totalQty n (st ++ [r]) = totalQty n st + (if r.name == n then r.quantity else 0) := by
  by_cases h : r.name == n <;> simp [totalQty, List.filter_append, List.filter_cons, h]

theorem matchesNL_name {n l : String} {r : Item} (h : matchesNL n l r = true) :
    r.name == n := by
  simp [matchesNL] at h
  simp [h.1]

theorem totalQty_updateFirst (n l : String) (d : Int) (st : Ledger)
    (h : ∃ r ∈ st, matchesNL n l r = true) :
    totalQty n (updateFirst (matchesNL n l)
      (fun r => { r with quantity := r.quantity + d }) st) = totalQty n st + d := by
  induction st with
  | nil => simp at h
  | cons r rs ih =>
    by_cases hp : matchesNL n l r = true
    · have hn : r.name == n := matchesNL_name hp
      simp only [updateFirst, hp, if_pos]
      rw [totalQty_cons, totalQty_cons]
      simp [hn]
      ring
    · have h2 : ∃ x ∈ rs, matchesNL n l x = true := by
        rcases h with ⟨x, hx, hmx⟩
        rcases List.mem_cons.mp hx with rfl | hx2
        · exact absurd hmx hp
        · exact ⟨x, hx2, hmx⟩
      simp only [updateFirst, hp, if_neg, Bool.false_eq_true, not_false_iff]
      rw [totalQty_cons, totalQty_cons, ih h2]
      ring

theorem sub_as_add_neg (q : Int) :
    (fun r : Item => { r with quantity := r.quantity - q })
      = (fun r : Item => { r with quantity := r.quantity + (-q) }) := by
  funext r
  simp [sub_eq_add_neg]


theorem totalQty_destUpsert (n : String) (q : Int) (l : String) (st : Ledger) :
    totalQty n (destUpsert n q l st) = totalQty n st + q := by
  unfold destUpsert
  cases hd : st.find? (matchesNL n l) with
  | some to_item =>
    exact totalQty_updateFirst n l q st
      ⟨to_item, List.mem_of_find?_eq_some hd, List.find?_some hd⟩
  | none =>
    rw [totalQty_append_one]
    simp

/-- C1: for every call to `POST /move` (`move_inventory`) — whether it ends
in a validation error, `NotFound`, `InsufficientStock`, a storage rejection
or success — the total quantity over all rows whose name equals the moved
item's name is the same after the call as before it: transfers only
redistribute stock, never create or destroy it. -/
theorem C1_move_conserves_total (item_name : String) (quantity : Int)
    (from_location to_location : String) (st : Ledger) :
    totalQty item_name (move_inventory item_name quantity from_location to_location st).2
      = totalQty item_name st := by
  unfold move_inventory
  by_cases hq : quantity ≤ 0
  · rw [if_pos hq]
  · rw [if_neg hq]
    unfold move_handler
    cases hf : st.find? (matchesNL item_name from_location) with
    | none => rfl
    | some from_item =>
      simp only
      by_cases hlt : from_item.quantity < quantity
      · rw [if_pos hlt]
      · rw [if_neg hlt]
        have hsrc : ∃ r ∈ st, matchesNL item_name from_location r = true :=
          ⟨from_item, List.mem_of_find?_eq_some hf, List.find?_some hf⟩
        have h1 : totalQty item_name (updateFirst (matchesNL item_name from_location)
            (fun r => { r with quantity := r.quantity - quantity }) st)
            = totalQty item_name st + (-quantity) := by
          rw [sub_as_add_neg]
          exact totalQty_updateFirst item_name from_location (-quantity) st hsrc
        have h2 := totalQty_destUpsert item_name quantity to_location
          (updateFirst (matchesNL item_name from_location)
            (fun r => { r with quantity := r.quantity - quantity }) st)
        rcases finish_snd .ok st (destUpsert item_name quantity to_location
            (updateFirst (matchesNL item_name from_location)
              (fun r => { r with quantity := r.quantity - quantity }) st)) with hc | hc <;>
          rw [hc]
        rw [h2, h1]
        ring

theorem find?_updateFirst_of_some (p : Item → Bool) (f : Item → Item) (st : Ledger)
    (r : Item) (hpf : ∀ x, p (f x) = p x) (h : st.find? p = some r) :
    (updateFirst p f st).find? p = some (f r) := by
  induction st with
  | nil => simp at h
  | cons a rs ih =>
    by_cases hp : p a = true
    · rw [List.find?_cons_of_pos _ hp] at h
      injection h with h
      subst h
      simp only [updateFirst, hp, if_pos]
      rw [List.find?_cons_of_pos]
      rw [hpf a, hp]
    · rw [List.find?_cons_of_neg _ hp] at h
      simp only [updateFirst, hp, Bool.false_eq_true, if_neg, not_false_iff]
      rw [List.find?_cons_of_neg _ hp]
      exact ih h

theorem updateFirst_sub_add_cancel (p : Item → Bool) (q : Int) (st : Ledger)
    (hp : ∀ r : Item, p { r with quantity := r.quantity - q } = p r) :
    updateFirst p (fun r => { r with quantity := r.quantity + q })
      (updateFirst p (fun r => { r with quantity := r.quantity - q }) st) = st := by
  induction st with
  | nil => rfl
  | cons a rs ih =>
    by_cases h : p a = true
    · simp only [updateFirst, h, if_pos, hp a]
      cases a
      simp
    · simp only [updateFirst, h, Bool.false_eq_true, if_neg, not_false_iff]
      rw [ih]

/-- C2: a self-transfer `POST /move` with `from_location = to_location = L`,
requesting a positive amount no larger than the stock recorded for
`(n, L)`, succeeds and leaves the whole ledger — in particular the row for
`(n, L)` — exactly as it was: the decrement and the increment hit the same
row and cancel, with no double-counting and no corruption. -/
theorem C2_self_transfer_noop (n : String) (q : Int) (L : String) (st : Ledger)
    (r : Item) (hf : st.find? (matchesNL n L) = some r) (hq : 0 < q)
    (hle : q ≤ r.quantity) (hnn : nonneg st = true) :
    move_inventory n q L L st = (.ok, st) := by
  unfold move_inventory move_handler
  rw [if_neg (by omega), hf]
  simp only
  rw [if_neg (by omega)]
  unfold destUpsert
  rw [find?_updateFirst_of_some (matchesNL n L)
    (fun x => { x with quantity := x.quantity - q }) st r (fun x => rfl) hf]
  simp only
  rw [updateFirst_sub_add_cancel (matchesNL n L) q st (fun x => rfl)]
  exact finish_of_nonneg .ok st st hnn

/-- C2 witness: the self-transfer of 3 "Widget" within "A" on the ledger
holding `(Widget, A, 5)` succeeds and changes nothing. -/
theorem C2_self_transfer_noop_witness :
    move_inventory "Widget" 3 "A" "A" [⟨1, "Widget", 5, "A"⟩]
      = (.ok, [⟨1, "Widget", 5, "A"⟩]) :=
  C2_self_transfer_noop "Widget" 3 "A" [⟨1, "Widget", 5, "A"⟩] ⟨1, "Widget", 5, "A"⟩
    (by decide) (by decide) (by decide) (by decide)

/-- C5: when the source row for `(itemName, fromLocation)` exists but holds
less than the requested amount, `POST /move` fails with 400
`InsufficientStock` carrying the available and requested amounts, and the
ledger is returned untouched — no quantity changes and no destination row
is created. -/
theorem C5_move_insufficient (n : String) (q : Int) (f t : String) (st : Ledger)
    (r : Item) (hq : 0 < q) (hf : st.find? (matchesNL n f) = some r)
    (hlt : r.quantity < q) :
    move_inventory n q f t st = (.insufficient r.quantity q, st) := by
  unfold move_inventory move_handler
  rw [if_neg (by omega), hf]
  simp only
  rw [if_pos hlt]

/-- C5 witness: moving 10 "Widget" out of "A" when "A" holds only 5 fails
with have 5 / need 10 and leaves the ledger untouched. -/
theorem C5_move_insufficient_witness :
    move_inventory "Widget" 10 "A" "B" [⟨1, "Widget", 5, "A"⟩]
      = (.insufficient 5 10, [⟨1, "Widget", 5, "A"⟩]) :=
  C5_move_insufficient "Widget" 10 "A" "B" [⟨1, "Widget", 5, "A"⟩]
    ⟨1, "Widget", 5, "A"⟩ (by decide) (by decide) (by decide)

/-- C6: when no row exists for `(itemName, fromLocation)`, `POST /move`
fails with 404 `NotFound` and every row of the ledger is left unchanged. -/
theorem C6_move_notFound (n : String) (q : Int) (f t : String) (st : Ledger)
    (hq : 0 < q) (hf : st.find? (matchesNL n f) = none) :
    move_inventory n q f t st = (.notFound, st) := by
  unfold move_inventory move_handler
  rw [if_neg (by omega), hf]

/-- C6 witness: moving "Ghost" out of "A" when the ledger only holds a
"Widget" row fails with 404 and changes nothing. -/
theorem C6_move_notFound_witness :
    move_inventory "Ghost" 1 "A" "B" [⟨1, "Widget", 5, "A"⟩]
      = (.notFound, [⟨1, "Widget", 5, "A"⟩]) :=
  C6_move_notFound "Ghost" 1 "A" "B" [⟨1, "Widget", 5, "A"⟩] (by decide) (by decide)

theorem finish_nonneg (s : ApiResult) (old new : Ledger) (h : nonneg old = true) :
    nonneg (finish s old new).2 = true := by
  by_cases h2 : nonneg new = true
  · simp [finish, commit, h2]
  · simp [finish, commit, h2, h]

theorem stepOp_nonneg (st : Ledger) (op : Op) (h : nonneg st = true) :
    nonneg (stepOp st op) = true := by
  cases op with
  | create n q l =>
    simp only [stepOp]
    unfold create_item
    split
    · exact h
    · exact finish_nonneg _ _ _ h
  | move n q f t =>
    simp only [stepOp]
    unfold move_inventory
    split
    · exact h
    · unfold move_handler
      cases hf : st.find? (matchesNL n f) with
      | none => exact h
      | some r =>
        simp only
        split
        · exact h
        · exact finish_nonneg _ _ _ h
  | addForm n q l =>
    simp only [stepOp]
    exact finish_nonneg _ _ _ h
  | moveForm n q f t =>
    simp only [stepOp]
    unfold move_item_form
    cases hf : st.find? (matchesNL n f) with
    | none => exact h
    | some r =>
      simp only
      split
      · exact h
      · exact finish_nonneg _ _ _ h
  | deleteOp i =>
    simp only [stepOp]
    unfold delete_item
    cases hf : st.find? (fun r => r.id == i) with
    | none => exact h
    | some r => exact finish_nonneg _ _ _ h

/-- C3: starting from a ledger in which every quantity is non-negative, no
sequence of calls to the five mutating surfaces (`POST /inventory`,
`POST /move`, `POST /add-item-form`, `POST /move-item-form`,
`DELETE /inventory/{id}`) can produce a persisted ledger holding a row
with `quantity < 0`: the declared check constraint rejects any commit that
would, rolling the transaction back. -/
theorem C3_nonneg_invariant (ops : List Op) (st : Ledger) (h : nonneg st = true) :
    nonneg (runOps st ops) = true := by
  induction ops generalizing st with
  | nil => exact h
  | cons op rest ih => exact ih (stepOp st op) (stepOp_nonneg st op h)

/-- C3 witness: a concrete sequence mixing JSON and form calls — including
a form arrival of -50 and a form move of -7, which the JSON surface would
reject — still ends (and stays) with every quantity non-negative. -/
theorem C3_nonneg_invariant_witness :
    nonneg (runOps [] [Op.create "Widget" 100 "A", Op.move "Widget" 30 "A" "B",
      Op.addForm "Widget" (-50) "A", Op.moveForm "Widget" (-7) "B" "A",
      Op.deleteOp 1]) = true :=
  C3_nonneg_invariant [Op.create "Widget" 100 "A", Op.move "Widget" 30 "A" "B",
      Op.addForm "Widget" (-50) "A", Op.moveForm "Widget" (-7) "B" "A",
      Op.deleteOp 1] [] (by decide)

theorem ledgerKeys_updateFirst (p : Item → Bool) (g : Item → Int) (st : Ledger) :
    ledgerKeys (updateFirst p (fun r => { r with quantity := g r }) st)
      = ledgerKeys st := by
  induction st with
  | nil => rfl
  | cons a rs ih =>
    by_cases h : p a = true
    · simp [updateFirst, h, ledgerKeys]
    · simp only [updateFirst, h, Bool.false_eq_true, if_neg, not_false_iff,
        ledgerKeys, List.map_cons] at ih ⊢
      rw [ih]

theorem find?_none_key_not_mem (n l : String) (st : Ledger)
    (h : st.find? (matchesNL n l) = none) : (n, l) ∉ ledgerKeys st := by
  rw [List.find?_eq_none] at h
  intro hmem
  rw [ledgerKeys, List.mem_map] at hmem
  rcases hmem with ⟨r, hr, heq⟩
  have hn : r.name = n := congrArg Prod.fst heq
  have hl : r.location = l := congrArg Prod.snd heq
  exact h r hr (by simp [matchesNL, hn, hl])

theorem uniqueNL_destUpsert (n : String) (q : Int) (l : String) (st : Ledger)
    (h : uniqueNL st) : uniqueNL (destUpsert n q l st) := by
  unfold destUpsert
  cases hd : st.find? (matchesNL n l) with
  | some r =>
    unfold uniqueNL at h ⊢
    rw [ledgerKeys_updateFirst]
    exact h
  | none =>
    unfold uniqueNL at h ⊢
    have hkeys : ledgerKeys (st ++ [⟨freshId st, n, q, l⟩])
        = ledgerKeys st ++ [(n, l)] := by
      simp [ledgerKeys]
    rw [hkeys]
    exact h.append (List.nodup_singleton _)
      (List.disjoint_singleton.mpr (find?_none_key_not_mem n l st hd))

theorem uniqueNL_finish (s : ApiResult) (old new : Ledger) (hold : uniqueNL old)
    (hnew : uniqueNL new) : uniqueNL (finish s old new).2 := by
  rcases finish_snd s old new with hc | hc <;> rw [hc]
  · exact hnew
  · exact hold

theorem uniqueNL_of_sublist {st st2 : Ledger} (hs : List.Sublist st2 st) (h : uniqueNL st) :
    uniqueNL st2 :=
  List.Nodup.sublist (List.Sublist.map _ hs) h

theorem stepOp_uniqueNL (st : Ledger) (op : Op) (h : uniqueNL st) :
    uniqueNL (stepOp st op) := by
  cases op with
  | create n q l =>
    simp only [stepOp]
    unfold create_item
    split
    · exact h
    · exact uniqueNL_finish _ _ _ h (uniqueNL_destUpsert n q l st h)
  | move n q f t =>
    simp only [stepOp]
    unfold move_inventory
    split
    · exact h
    · unfold move_handler
      cases hf : st.find? (matchesNL n f) with
      | none => exact h
      | some r =>
        simp only
        split
        · exact h
        · refine uniqueNL_finish _ _ _ h (uniqueNL_destUpsert n q t _ ?_)
          unfold uniqueNL
          rw [ledgerKeys_updateFirst]
          exact h
  | addForm n q l =>
    simp only [stepOp]
    unfold add_item_form
    exact uniqueNL_finish _ _ _ h (uniqueNL_destUpsert n q l st h)
  | moveForm n q f t =>
    simp only [stepOp]
    unfold move_item_form
    cases hf : st.find? (matchesNL n f) with
    | none => exact h
    | some r =>
      simp only
      split
      · exact h
      · refine uniqueNL_finish _ _ _ h (uniqueNL_destUpsert n q t _ ?_)
        unfold uniqueNL
        rw [ledgerKeys_updateFirst]
        exact h
  | deleteOp i =>
    simp only [stepOp]
    unfold delete_item
    cases hf : st.find? (fun r => r.id == i) with
    | none => exact h
    | some r =>
      exact uniqueNL_finish _ _ _ h
        (uniqueNL_of_sublist (List.eraseP_sublist st) h)

/-- C4: starting from a ledger with at most one row per `(name, location)`
pair, any sequence of calls to the five mutating surfaces leaves at most
one row per pair; and in particular `POST /inventory` for a pair that
already has a row increments that row — the set of `(name, location)` keys
(and even their order) is unchanged, so no second row is inserted. -/
theorem C4_unique_pairs (ops : List Op) (st : Ledger) (h : uniqueNL st) :
    uniqueNL (runOps st ops) ∧
    ∀ n q l r, st.find? (matchesNL n l) = some r →
      ledgerKeys (create_item n q l st).2 = ledgerKeys st := by
  constructor
  · induction ops generalizing st with
    | nil => exact h
    | cons op rest ih => exact ih (stepOp st op) (stepOp_uniqueNL st op h)
  · intro n q l r hf
    unfold create_item
    split
    · rfl
    · rcases finish_snd .ok st (destUpsert n q l st) with hc | hc <;> rw [hc]
      unfold destUpsert
      rw [hf]
      exact ledgerKeys_updateFirst _ _ st

/-- C4 witness: from the one-row ledger `(Widget, A, 50)`, the sequence
"receive 25 more Widget at A" keeps the pair-uniqueness invariant, and the
receive call leaves the `(name, location)` key list exactly as it was —
it incremented the existing row instead of inserting a second one. -/
theorem C4_unique_pairs_witness :
    uniqueNL (runOps [⟨1, "Widget", 50, "A"⟩] [Op.create "Widget" 25 "A"]) ∧
    ledgerKeys (create_item "Widget" 25 "A" [⟨1, "Widget", 50, "A"⟩]).2
      = ledgerKeys [⟨1, "Widget", 50, "A"⟩] :=
  ⟨(C4_unique_pairs [Op.create "Widget" 25 "A"] [⟨1, "Widget", 50, "A"⟩] (by decide)).1,
   (C4_unique_pairs [Op.create "Widget" 25 "A"] [⟨1, "Widget", 50, "A"⟩] (by decide)).2
     "Widget" 25 "A" ⟨1, "Widget", 50, "A"⟩ (by decide)⟩

/-- C7 counterexample: on the HTML form surface, a move with the
non-positive amount -3 does not fail with `InvalidArgument` and does
mutate: from `(Widget, A, 5), (Widget, B, 10)` it responds with a redirect
and commits `(Widget, A, 8), (Widget, B, 7)` — stock flowed backwards. -/
theorem C7_counterexample :
    move_item_form "Widget" (-3) "A" "B"
        [⟨1, "Widget", 5, "A"⟩, ⟨2, "Widget", 10, "B"⟩]
      = (.redirect, [⟨1, "Widget", 8, "A"⟩, ⟨2, "Widget", 7, "B"⟩]) := by
  decide

/-- C7 (amended): on the JSON `POST /move` surface, every request with
`amount <= 0` fails with `InvalidArgument` (pydantic 422) before the
handler runs, and no mutation occurs; the HTML form surface
`POST /move-item-form` performs no such validation. -/
theorem C7_json_rejects_nonpositive (n : String) (q : Int) (f t : String)
    (st : Ledger) (h : q ≤ 0) :
    move_inventory n q f t st = (.validationError, st) := by
  unfold move_inventory
  rw [if_pos h]

/-- C7 witness: a zero-amount JSON move is rejected with a validation
error and the ledger is untouched. -/
theorem C7_json_rejects_nonpositive_witness :
    move_inventory "Widget" 0 "A" "B" [⟨1, "Widget", 5, "A"⟩]
      = (.validationError, [⟨1, "Widget", 5, "A"⟩]) :=
  C7_json_rejects_nonpositive "Widget" 0 "A" "B" [⟨1, "Widget", 5, "A"⟩] (by decide)

/-- C8 counterexample: the `items` table does not declare both constraints
the claim names — `__table_args__` holds only the quantity check, and no
column carries a UNIQUE flag, so no uniqueness constraint on
`(name, location)` is declared anywhere in the schema. -/
theorem C8_counterexample : ¬ (declaresUniqueNL ∧ declaresQuantityCheck) := by
  decide

/-- C8 (amended): the persisted table declares the check constraint
`quantity >= 0` (`check_quantity_positive`), but no uniqueness constraint
on `(name, location)`; pair-uniqueness is enforced only by the
application's find-before-insert logic. -/
theorem C8_check_declared_unique_not : declaresQuantityCheck ∧ ¬ declaresUniqueNL := by
  decide

theorem eraseP_id_eq_filter (i : Nat) (st : Ledger)
    (hids : (st.map Item.id).Nodup) :
    st.eraseP (fun r => r.id == i) = st.filter (fun r => !(r.id == i)) := by
  induction st with
  | nil => rfl
  | cons a rs ih =>
    rw [List.map_cons, List.nodup_cons] at hids
    by_cases h : a.id = i
    · rw [List.eraseP_cons_of_pos (by simp [h])]
      rw [List.filter_cons_of_neg (by simp [h])]
      symm
      rw [List.filter_eq_self]
      intro x hx
      have : x.id ≠ i := by
        intro hxi
        exact hids.1 (by
          rw [← h] at hxi
          exact hxi ▸ List.mem_map_of_mem Item.id hx)
      simp [this]
    · rw [List.eraseP_cons_of_neg (by simp [h])]
      rw [List.filter_cons_of_pos (by simp [h])]
      rw [ih hids.2]

/-- C9: deletion by id (`DELETE /inventory/{item_id}`) removes the row
with that id regardless of its remaining quantity — there is no
zero-quantity precondition — and tells the caller whether a row existed:
when no row carries the id the caller gets a 404 not-found failure and the
ledger is byte-for-byte unchanged; when one does, the call succeeds and
the resulting ledger holds exactly the rows of the old one whose id
differs. -/
theorem C9_delete_by_id (i : Nat) (st : Ledger) (hnn : nonneg st = true)
    (hids : (st.map Item.id).Nodup) :
    (st.find? (fun r => r.id == i) = none → delete_item i st = (.notFound, st)) ∧
    (∀ r, st.find? (fun r => r.id == i) = some r →
      (delete_item i st).1 = .ok ∧
      ∀ x, x ∈ (delete_item i st).2 ↔ (x ∈ st ∧ x.id ≠ i)) := by
  constructor
  · intro hf
    unfold delete_item
    rw [hf]
  · intro r hf
    unfold delete_item
    rw [hf]
    simp only
    have herase := eraseP_id_eq_filter i st hids
    have hnn2 : nonneg (st.eraseP (fun r => r.id == i)) = true := by
      rw [herase]
      rw [nonneg, List.all_eq_true] at hnn ⊢
      intro x hx
      exact hnn x (List.mem_of_mem_filter hx)
    rw [finish_of_nonneg _ _ _ hnn2]
    refine ⟨rfl, ?_⟩
    intro x
    simp only [herase, List.mem_filter]
    constructor
    · rintro ⟨hx, hne⟩
      exact ⟨hx, by simpa using hne⟩
    · rintro ⟨hx, hne⟩
      exact ⟨hx, by simpa using hne⟩

/-- C9 witness: deleting id 1 from `(1, Widget, 5, A), (2, Bolt, 0, B)`
succeeds despite the nonzero remaining quantity and removes exactly that
row; the Bolt row survives. -/
theorem C9_delete_by_id_witness :
    (delete_item 1 [⟨1, "Widget", 5, "A"⟩, ⟨2, "Bolt", 0, "B"⟩]).1 = .ok ∧
    ((⟨2, "Bolt", 0, "B"⟩ : Item)
        ∈ (delete_item 1 [⟨1, "Widget", 5, "A"⟩, ⟨2, "Bolt", 0, "B"⟩]).2 ↔
      ((⟨2, "Bolt", 0, "B"⟩ : Item) ∈ [⟨1, "Widget", 5, "A"⟩, ⟨2, "Bolt", 0, "B"⟩]
        ∧ (2 : Nat) ≠ 1)) :=
  ⟨((C9_delete_by_id 1 [⟨1, "Widget", 5, "A"⟩, ⟨2, "Bolt", 0, "B"⟩] (by decide)
      (by decide)).2 ⟨1, "Widget", 5, "A"⟩ (by decide)).1,
   ((C9_delete_by_id 1 [⟨1, "Widget", 5, "A"⟩, ⟨2, "Bolt", 0, "B"⟩] (by decide)
      (by decide)).2 ⟨1, "Widget", 5, "A"⟩ (by decide)).2 ⟨2, "Bolt", 0, "B"⟩⟩

/-- C10: on the HTML form surface, a move whose source row is absent, or
whose source row holds less than the requested amount, mutates nothing and
answers with a 303 redirect to the home page — no error reaches the caller
— whereas the JSON `POST /move` endpoint on the same input fails loudly
with 404 `NotFound` or 400 `InsufficientStock` respectively. -/
theorem C10_form_move_silent (n : String) (q : Int) (f t : String) (st : Ledger)
    (hq : 0 < q) :
    (st.find? (matchesNL n f) = none →
      move_item_form n q f t st = (.redirect, st) ∧
      move_inventory n q f t st = (.notFound, st)) ∧
    (∀ r, st.find? (matchesNL n f) = some r → r.quantity < q →
      move_item_form n q f t st = (.redirect, st) ∧
      move_inventory n q f t st = (.insufficient r.quantity q, st)) := by
  constructor
  · intro hf
    constructor
    · unfold move_item_form
      rw [hf]
    · unfold move_inventory move_handler
      rw [if_neg (by omega), hf]
  · intro r hf hlt
    constructor
    · unfold move_item_form
      rw [hf]
      simp only
      rw [if_pos hlt]
    · unfold move_inventory move_handler
      rw [if_neg (by omega), hf]
      simp only
      rw [if_pos hlt]

/-- C10 witness: with the single row `(Widget, A, 5)`, the form move of a
missing item and the form move of 10 Widget both redirect silently and
change nothing, while the JSON endpoint answers 404 and 400. -/
theorem C10_form_move_silent_witness :
    (move_item_form "Ghost" 1 "A" "B" [⟨1, "Widget", 5, "A"⟩]
        = (.redirect, [⟨1, "Widget", 5, "A"⟩]) ∧
      move_inventory "Ghost" 1 "A" "B" [⟨1, "Widget", 5, "A"⟩]
        = (.notFound, [⟨1, "Widget", 5, "A"⟩])) ∧
    (move_item_form "Widget" 10 "A" "B" [⟨1, "Widget", 5, "A"⟩]
        = (.redirect, [⟨1, "Widget", 5, "A"⟩]) ∧
      move_inventory "Widget" 10 "A" "B" [⟨1, "Widget", 5, "A"⟩]
        = (.insufficient 5 10, [⟨1, "Widget", 5, "A"⟩])) :=
  ⟨(C10_form_move_silent "Ghost" 1 "A" "B" [⟨1, "Widget", 5, "A"⟩]
      (by decide)).1 (by decide),
   (C10_form_move_silent "Widget" 10 "A" "B" [⟨1, "Widget", 5, "A"⟩]
      (by decide)).2 ⟨1, "Widget", 5, "A"⟩ (by decide) (by decide)⟩
